import Mathlib

/-!
Verification of the PID-lockfile and daemon-runner core of `python-daemon`
(`daemon/pidlockfile.py` and `daemon/runner.py`), as a shallow embedding.

The filesystem is modelled as a map from paths to optional file contents.
OS-level nondeterminism (an injected `OSError` during a write or delete, the
outcome of `os.kill`, the wall clock, and concurrent mutation of the
filesystem between polls of the acquire loop) is modelled by explicit
environment parameters.  The external `lockfile.LinkFileLock` base class and
`daemon.DaemonContext` collaborator are not part of the analysed sources;
they are modelled from the specification's interface contract (and from the
repository's own test doubles), and each such definition is marked
`Modelled from the spec:` in its doc comment.
-/

set_option autoImplicit false

namespace PyDaemon

/-- A filesystem: each path holds at most one file with string content.
`none` means the path does not exist (or, for read purposes, cannot be
opened — the spec treats the two identically). -/
def FileSys : Type := String → Option String

/-- Write (create or replace) the file at `path`. -/
def setFile (fs : FileSys) (path : String) (content : String) : FileSys :=
  fun p => if p = path then some content else fs p

/-- Delete the file at `path`. -/
def removeFile (fs : FileSys) (path : String) : FileSys :=
  fun p => if p = path then none else fs p

/-- `errno.ENOENT`. -/
def ENOENT : Nat := 2

/-- `errno.ESRCH`. -/
def ESRCH : Nat := 3

/-- `errno.EPERM`. -/
def EPERM : Nat := 1

/-- `errno.EACCES`. -/
def EACCES : Nat := 13

/-- `signal.SIG_DFL`, numerically `0`: the null liveness-probe signal. -/
def SIG_DFL : Int := 0

/-- `signal.SIGTERM`, numerically `15`: the graceful-termination signal. -/
def SIGTERM : Int := 15

/-- The whitespace characters stripped by Python's `str.strip()`. -/
def isPyWS (c : Char) : Bool :=
  c = ' ' || c = '\t' || c = '\n' || c = '\r' || c = '\x0b' || c = '\x0c'

/-- Python `str.strip()` on a character list: drop whitespace at both ends. -/
def pyStripChars (l : List Char) : List Char :=
  ((l.dropWhile isPyWS).reverse.dropWhile isPyWS).reverse

/-- Decimal value of a digit string (most significant first). -/
def digitsVal (l : List Char) : Nat :=
  l.foldl (fun a c => a * 10 + (c.toNat - 48)) 0

/-- Python 2 `int(s)` on an already-stripped string: an optional sign
followed by one or more decimal digits; anything else raises `ValueError`
(modelled as `none`). -/
def pyInt (l : List Char) : Option Int :=
  match pyStripChars l with
  | [] => none
  | c :: ds =>
      if c = '+' then
        if ds ≠ [] ∧ ds.all Char.isDigit then some (digitsVal ds) else none
      else if c = '-' then
        if ds ≠ [] ∧ ds.all Char.isDigit then some (-(digitsVal ds : Int)) else none
      else
        if (c :: ds).all Char.isDigit then some (digitsVal (c :: ds)) else none

/-- `pidlockfile.pidfile_exists`: `os.path.exists(pidfile_path)`. -/
def pidfile_exists (fs : FileSys) (pidfile_path : String) : Bool :=
  (fs pidfile_path).isSome

/-- `pidlockfile.read_pid_from_pidfile`: open for read (`IOError`, e.g. a
missing file, yields `None`), read the whole content, `strip()` it and parse
with `int`; a `ValueError` from the parse also yields `None`. -/
def read_pid_from_pidfile (fs : FileSys) (pidfile_path : String) : Option Int :=
  match fs pidfile_path with
  | none => none
  | some content => pyInt content.toList

/-- `pidlockfile.write_pid_to_pidfile`: `open(pidfile_path, 'w')` — a
truncating create-or-replace, not an exclusive create — then write the
current PID as `"%d\n"`.  `oserr` models an environment-injected `OSError`
during the open/write (as the repository's tests inject `EBUSY`). -/
def write_pid_to_pidfile (oserr : Bool) (fs : FileSys) (pidfile_path : String)
    (pid : Int) : Except Unit FileSys :=
  if oserr then Except.error ()
  else Except.ok (setFile fs pidfile_path (toString pid ++ "\n"))

/-- `os.remove` under an environment `env`: `some e` injects an `OSError`
with errno `e` (e.g. `EACCES`); otherwise the call removes an existing file
and raises `ENOENT` for a missing one. -/
def os_remove (env : Option Nat) (fs : FileSys) (pidfile_path : String) :
    Except Nat FileSys :=
  match env with
  | some e => Except.error e
  | none =>
      if pidfile_exists fs pidfile_path then
        Except.ok (removeFile fs pidfile_path)
      else Except.error ENOENT

/-- `pidlockfile.remove_existing_pidfile`: `os.remove`, swallowing exactly
the `ENOENT` failure and re-raising every other `OSError`. -/
def remove_existing_pidfile (env : Option Nat) (fs : FileSys)
    (pidfile_path : String) : Except Nat FileSys :=
  match os_remove env fs pidfile_path with
  | Except.ok fs1 => Except.ok fs1
  | Except.error e => if e = ENOENT then Except.ok fs else Except.error e

/-- The `lockfile` error taxonomy used by `pidlockfile.py`. -/
inductive LockError
  | alreadyLocked
  | lockFailed
  | notLocked
  | notMyLock
  deriving DecidableEq, Repr

/-- The environment an `acquire` call runs in: `fsAt k` is the filesystem
as observed at the `k`-th existence poll (concurrent processes may change
it between polls), `timeAt k` the value returned by the `k`-th call to
`time.time()` (call `0` is the one capturing the request timestamp), and
`writeFails` whether the final `open`/write raises `OSError`. -/
structure AcquireEnv where
  fsAt : Nat → FileSys
  timeAt : Nat → ℚ
  writeFails : Bool

/-- Observable actions of an `acquire` call: a `time.sleep(poll_interval)`
and the PID-file write. -/
inductive AcquireEv
  | sleepEv
  | writeEv
  deriving DecidableEq, Repr

/-- Result of an `acquire` call.  `fuelOut` is the artefact of bounding the
(unbounded) polling loop by fuel. -/
inductive AcquireRes
  | acquired (fs : FileSys)
  | alreadyLocked
  | lockFailed
  | fuelOut

/-- The `while pidfile_exists(self.path):` loop of `PIDLockFile.acquire`,
started at poll index `k` with the deadline (`timeout_timestamp`) already
captured: while the file exists, raise `AlreadyLocked` as soon as
`time.time()` exceeds the deadline (when one is set), else sleep and poll
again; once the file is absent, write the PID file, turning an `OSError`
into `LockFailed`. -/
def acquireLoop (env : AcquireEnv) (path : String) (pid : Int)
    (deadline : Option ℚ) : Nat → Nat → List AcquireEv × AcquireRes
  | 0, _ => ([], AcquireRes.fuelOut)
  | fuel + 1, k =>
    if pidfile_exists (env.fsAt k) path then
      match deadline with
      | some d =>
          if d < env.timeAt (k + 1) then ([], AcquireRes.alreadyLocked)
          else
            let r := acquireLoop env path pid deadline fuel (k + 1)
            (AcquireEv.sleepEv :: r.1, r.2)
      | none =>
          let r := acquireLoop env path pid deadline fuel (k + 1)
          (AcquireEv.sleepEv :: r.1, r.2)
    else
      match write_pid_to_pidfile env.writeFails (env.fsAt k) path pid with
      | Except.error _ => ([], AcquireRes.lockFailed)
      | Except.ok fs1 => ([AcquireEv.writeEv], AcquireRes.acquired fs1)

/-- `PIDLockFile.acquire`: when a `timeout` is given, the deadline is
captured once, up front, as `time.time() + timeout`; then the polling loop
runs. -/
def PIDLockFile.acquire (env : AcquireEnv) (path : String) (pid : Int)
    (timeout : Option ℚ) (fuel : Nat) : List AcquireEv × AcquireRes :=
  let deadline := timeout.map (fun t => env.timeAt 0 + t)
  acquireLoop env path pid deadline fuel 0

/-- `PIDLockFile.break_lock`: unconditionally `remove_existing_pidfile`. -/
def PIDLockFile.break_lock (env : Option Nat) (fs : FileSys) (path : String) :
    Except Nat FileSys :=
  remove_existing_pidfile env fs path

/-- Modelled from the spec: the state of the external
`lockfile.LinkFileLock` base lock (not part of the analysed sources).
Mirrors the repository's own test double
(`test_pidlockfile.setup_lockfile_method_mocks`): whether the lock is held
(`lockExists`) and the PID recorded as holding it (`lockingPid`).  The
specification's invariant keeps this state in sync with the PID file. -/
structure BaseLockState where
  lockExists : Bool
  lockingPid : Option Int
  deriving DecidableEq, Repr

/-- Modelled from the spec: `LinkFileLock.i_am_locking` — true iff the lock
is held and the recorded holder PID is the calling process's own. -/
def LinkFileLock.i_am_locking (b : BaseLockState) (myPid : Int) : Bool :=
  b.lockExists && b.lockingPid = some myPid

/-- Modelled from the spec: `LinkFileLock.is_locked` — true iff the PID
file currently exists. -/
def LinkFileLock.is_locked (fs : FileSys) (path : String) : Bool :=
  pidfile_exists fs path

/-- Modelled from the spec: `LinkFileLock.release` — `NotLocked` when the
lock is not held at all, `NotMyLock` when it is held but not by the calling
process, otherwise drop the lock. -/
def LinkFileLock.release (b : BaseLockState) (myPid : Int) :
    Except LockError BaseLockState :=
  if b.lockExists = false then Except.error LockError.notLocked
  else if b.lockingPid ≠ some myPid then Except.error LockError.notMyLock
  else Except.ok ⟨false, none⟩

/-- An error surfaced by `PIDLockFile.release`: either an `OSError` from
the file removal or a `lockfile` error from the base class. -/
inductive RelErr
  | osErr (e : Nat)
  | lockErr (e : LockError)
  deriving DecidableEq, Repr

/-- Outcome of `PIDLockFile.release`: the filesystem and base-lock state at
return (or raise) time, and the exception raised, if any. -/
structure RelOut where
  fs : FileSys
  base : BaseLockState
  err : Option RelErr

/-- `PIDLockFile.release`: if `self.i_am_locking()`, remove the PID file;
then call the inherited `LinkFileLock.release` (which raises `NotLocked` /
`NotMyLock` when the calling process does not hold the lock). -/
def PIDLockFile.release (renv : Option Nat) (b : BaseLockState) (fs : FileSys)
    (path : String) (myPid : Int) : RelOut :=
  match (if LinkFileLock.i_am_locking b myPid
         then remove_existing_pidfile renv fs path
         else Except.ok fs) with
  | Except.error e => ⟨fs, b, some (RelErr.osErr e)⟩
  | Except.ok fs1 =>
      match LinkFileLock.release b myPid with
      | Except.error le => ⟨fs1, b, some (RelErr.lockErr le)⟩
      | Except.ok b1 => ⟨fs1, b1, none⟩

/-- A Python exception class raised by the runner outside the `lockfile`
taxonomy: `AttributeError` from dereferencing a `None` pidfile, and
`TypeError` from `os.kill(None, ...)`. -/
inductive PyExc
  | attributeError
  | typeError
  deriving DecidableEq, Repr

/-- `runner.is_pidfile_stale`: `pidfile.read_pid()` (an `AttributeError`
when `pidfile` is `None`); no recorded PID means not stale; otherwise probe
the PID with `os.kill(pid, signal.SIG_DFL)` — only an `OSError` with errno
`ESRCH` makes the lock stale, any other outcome (success, or e.g. a
permission failure) leaves the result `False`.  The probe outcome is the
environment function `kill pid sig`, returning the errno of the raised
`OSError`, or `none` when the call succeeds. -/
def is_pidfile_stale (kill : Int → Int → Option Nat) (fs : FileSys)
    (pidfile : Option String) : Except PyExc Bool :=
  match pidfile with
  | none => Except.error PyExc.attributeError
  | some path =>
      match read_pid_from_pidfile fs path with
      | none => Except.ok false
      | some pid =>
          match kill pid SIG_DFL with
          | none => Except.ok false
          | some e => if e = ESRCH then Except.ok true else Except.ok false

/-- Observable actions of a runner action: breaking the lock, a call to
`os.kill`, and the steps of the acquire performed inside the daemon
context's `open()`. -/
inductive RunEv
  | breakLockEv
  | killEv (pid : Int) (sig : Int)
  | acqEv (e : AcquireEv)
  deriving DecidableEq, Repr

/-- Result of the modelled `DaemonContext.open()`. -/
inductive OpenRes
  | opened (fs : FileSys)
  | openAlreadyLocked
  | openLockFailed
  | openFuelOut

/-- Replace the filesystem observed at the first poll of an acquire with
the current one, keeping the environment's later (concurrently mutated)
observations. -/
def updFs (env : AcquireEnv) (fs : FileSys) : AcquireEnv :=
  { env with fsAt := fun k => if k = 0 then fs else env.fsAt k }

/-- Modelled from the spec: `DaemonContext.open` (the daemonization
collaborator, `daemon/daemon.py`, is not among the analysed sources).  When
a pidfile is configured it acquires it with the configured timeout as part
of opening; an already-held lock surfaces as `AlreadyLocked`.  With no
pidfile configured, no locking happens at all. -/
def DaemonContext.open_ (env : AcquireEnv) (pidfile : Option String)
    (myPid : Int) (timeout : Option ℚ) (fuel : Nat) (fs : FileSys) :
    List AcquireEv × OpenRes :=
  match pidfile with
  | none => ([], OpenRes.opened fs)
  | some path =>
      let r := PIDLockFile.acquire (updFs env fs) path myPid timeout fuel
      (r.1,
        match r.2 with
        | AcquireRes.acquired fs1 => OpenRes.opened fs1
        | AcquireRes.alreadyLocked => OpenRes.openAlreadyLocked
        | AcquireRes.lockFailed => OpenRes.openLockFailed
        | AcquireRes.fuelOut => OpenRes.openFuelOut)

/-- Result of `DaemonRunner._start`: `started fs` means the "started with
pid" message was emitted and `app.run()` was reached. -/
inductive StartRes
  | started (fs : FileSys)
  | startFailure (path : String)
  | startLockFailed
  | startFuelOut
  | startAttrError
  | startOsError (e : Nat)

/-- The `try: self.daemon_context.open() except pidlockfile.AlreadyLocked:`
wrapper of `_start`: `AlreadyLocked` becomes
`DaemonRunnerStartFailureError` naming the PID-file path; any other
exception propagates. -/
def startResOfOpen (path : String) : OpenRes → StartRes
  | OpenRes.opened fs2 => StartRes.started fs2
  | OpenRes.openAlreadyLocked => StartRes.startFailure path
  | OpenRes.openLockFailed => StartRes.startLockFailed
  | OpenRes.openFuelOut => StartRes.startFuelOut

/-- `DaemonRunner._start`: break the lock when the PID file is stale (with
a `None` pidfile the staleness check itself dereferences `None` and raises
`AttributeError`); then open the daemon context, turning `AlreadyLocked`
into `DaemonRunnerStartFailureError` naming the PID-file path; every other
exception propagates. -/
def DaemonRunner.start (kill : Int → Int → Option Nat) (env : AcquireEnv)
    (renv : Option Nat) (pidfile : Option String) (myPid : Int)
    (timeout : Option ℚ) (fuel : Nat) (fs : FileSys) : List RunEv × StartRes :=
  match is_pidfile_stale kill fs pidfile with
  | Except.error _ => ([], StartRes.startAttrError)
  | Except.ok stale =>
      match pidfile with
      | none =>
          if stale then ([], StartRes.startAttrError)
          else
            let r := DaemonContext.open_ env none myPid timeout fuel fs
            (r.1.map RunEv.acqEv,
              match r.2 with
              | OpenRes.opened fs1 => StartRes.started fs1
              | OpenRes.openAlreadyLocked => StartRes.startAttrError
              | OpenRes.openLockFailed => StartRes.startLockFailed
              | OpenRes.openFuelOut => StartRes.startFuelOut)
      | some path =>
          match (if stale then PIDLockFile.break_lock renv fs path
                 else Except.ok fs) with
          | Except.error e => ([], StartRes.startOsError e)
          | Except.ok fs1 =>
              let r := DaemonContext.open_ env (some path) myPid timeout fuel fs1
              ((if stale then [RunEv.breakLockEv] else []) ++ r.1.map RunEv.acqEv,
                startResOfOpen path r.2)

/-- Result of `DaemonRunner._stop`. -/
inductive StopRes
  | stopped (fs : FileSys)
  | stopFailureNotLocked (path : String)
  | stopFailureKill (pid : Int) (e : Nat)
  | stopAttrError
  | stopTypeError
  | stopOsError (e : Nat)

/-- `DaemonRunner._terminate_daemon_process`: read the recorded PID (with
no readable PID, `os.kill(None, SIGTERM)` raises an uncaught `TypeError`)
and send it `SIGTERM`; an `OSError` from the kill becomes
`DaemonRunnerStopFailureError` wrapping the PID and the cause. -/
def DaemonRunner.terminate_daemon_process (kill : Int → Int → Option Nat)
    (fs : FileSys) (path : String) : List RunEv × StopRes :=
  match read_pid_from_pidfile fs path with
  | none => ([], StopRes.stopTypeError)
  | some pid =>
      match kill pid SIGTERM with
      | none => ([RunEv.killEv pid SIGTERM], StopRes.stopped fs)
      | some e => ([RunEv.killEv pid SIGTERM], StopRes.stopFailureKill pid e)

/-- `DaemonRunner._stop`: `DaemonRunnerStopFailureError` when the lock is
not held; break a stale lock and return; otherwise terminate the recorded
process. -/
def DaemonRunner.stop (kill : Int → Int → Option Nat) (renv : Option Nat)
    (pidfile : Option String) (fs : FileSys) : List RunEv × StopRes :=
  match pidfile with
  | none => ([], StopRes.stopAttrError)
  | some path =>
      if LinkFileLock.is_locked fs path = false then
        ([], StopRes.stopFailureNotLocked path)
      else
        match is_pidfile_stale kill fs (some path) with
        | Except.error _ => ([], StopRes.stopAttrError)
        | Except.ok true =>
            match PIDLockFile.break_lock renv fs path with
            | Except.ok fs1 => ([RunEv.breakLockEv], StopRes.stopped fs1)
            | Except.error e => ([], StopRes.stopOsError e)
        | Except.ok false => DaemonRunner.terminate_daemon_process kill fs path

/-! ### Concrete fixtures -/

/-- A concrete PID-file path. -/
def pidPath : String := "/run/d.pid"

/-- The empty filesystem. -/
def fsEmpty : FileSys := fun _ => none

/-- A filesystem whose PID file records another process's PID, `8642`. -/
def fsOther : FileSys := fun p => if p = pidPath then some "8642\n" else none

/-- A filesystem whose PID file records the calling process's PID, `235`. -/
def fsMine : FileSys := fun p => if p = pidPath then some "235\n" else none

/-- A filesystem whose PID file holds a negative decimal integer. -/
def fsNeg : FileSys := fun p => if p = pidPath then some "-5\n" else none

/-- A strictly increasing wall clock. -/
def clockLin : Nat → ℚ := fun k => (k : ℚ)

/-- An `os.kill` outcome function under which every probe succeeds. -/
def killAlive : Int → Int → Option Nat := fun _ _ => none

/-- An `os.kill` outcome function under which every probe fails `ESRCH`. -/
def killGone : Int → Int → Option Nat := fun _ _ => some ESRCH

/-- Acquire environment: the PID file is held by `8642` at every poll. -/
def envOther : AcquireEnv := ⟨fun _ => fsOther, clockLin, false⟩

/-- Acquire environment: the path stays absent. -/
def envEmpty : AcquireEnv := ⟨fun _ => fsEmpty, clockLin, false⟩

/-! ### Claim theorems -/

/-- The amended claim C7's notion of a valid PID record: after stripping,
an optional sign followed by one or more decimal digits, denoting the
corresponding (possibly negative) value. -/
def SignedDecimalRepr (l : List Char) (v : Int) : Prop :=
  (l ≠ [] ∧ l.all Char.isDigit = true ∧ v = (digitsVal l : Int)) ∨
  (∃ ds, l = '+' :: ds ∧ ds ≠ [] ∧ ds.all Char.isDigit = true ∧
    v = (digitsVal ds : Int)) ∨
  (∃ ds, l = '-' :: ds ∧ ds ≠ [] ∧ ds.all Char.isDigit = true ∧
    v = -(digitsVal ds : Int))

theorem pyInt_eq_some_iff (l : List Char) (v : Int) :
    pyInt l = some v ↔ SignedDecimalRepr (pyStripChars l) v := by
  have hplus : ('+' : Char).isDigit = false := by decide
  have hminus : ('-' : Char).isDigit = false := by decide
  have hpm : ('+' : Char) ≠ '-' := by decide
  unfold pyInt SignedDecimalRepr
  cases h : pyStripChars l with
  | nil => simp
  | cons c ds =>
    dsimp only
    split_ifs with h1 h2 h3 h4 h5
    · subst h1
      constructor
      · intro hv
        exact Or.inr (Or.inl ⟨ds, rfl, h2.1, h2.2, (Option.some_inj.mp hv).symm⟩)
      · rintro (⟨-, hall, -⟩ | ⟨ds1, hds1, -, -, hv⟩ | ⟨ds1, hds1, -, -, -⟩)
        · rw [List.all_cons, hplus, Bool.false_and] at hall
          exact Bool.noConfusion hall
        · injection hds1 with hc htl
          subst htl
          rw [hv]
        · injection hds1 with hc htl
          exact absurd hc hpm
    · subst h1
      rw [not_and_or, not_not] at h2
      constructor
      · intro hv
        exact hv.elim
      · rintro (⟨-, hall, -⟩ | ⟨ds1, hds1, hne, hall, -⟩ | ⟨ds1, hds1, -, -, -⟩)
        · rw [List.all_cons, hplus, Bool.false_and] at hall
          exact Bool.noConfusion hall
        · injection hds1 with hc htl
          subst htl
          rcases h2 with h2 | h2
          · exact absurd h2 hne
          · exact absurd hall h2
        · injection hds1 with hc htl
          exact absurd hc hpm
    · subst h3
      constructor
      · intro hv
        exact Or.inr (Or.inr ⟨ds, rfl, h4.1, h4.2, (Option.some_inj.mp hv).symm⟩)
      · rintro (⟨-, hall, -⟩ | ⟨ds1, hds1, -, -, -⟩ | ⟨ds1, hds1, -, -, hv⟩)
        · rw [List.all_cons, hminus, Bool.false_and] at hall
          exact Bool.noConfusion hall
        · injection hds1 with hc htl
          exact absurd hc.symm hpm
        · injection hds1 with hc htl
          subst htl
          rw [hv]
    · subst h3
      rw [not_and_or, not_not] at h4
      constructor
      · intro hv
        exact hv.elim
      · rintro (⟨-, hall, -⟩ | ⟨ds1, hds1, -, -, -⟩ | ⟨ds1, hds1, hne, hall, -⟩)
        · rw [List.all_cons, hminus, Bool.false_and] at hall
          exact Bool.noConfusion hall
        · injection hds1 with hc htl
          exact absurd hc.symm hpm
        · injection hds1 with hc htl
          subst htl
          rcases h4 with h4 | h4
          · exact absurd h4 hne
          · exact absurd hall h4
    · constructor
      · intro hv
        exact Or.inl ⟨List.cons_ne_nil c ds, h5, (Option.some_inj.mp hv).symm⟩
      · rintro (⟨-, -, hv⟩ | ⟨ds1, hds1, -, -, -⟩ | ⟨ds1, hds1, -, -, -⟩)
        · rw [hv]
        · injection hds1 with hc htl
          exact absurd hc h1
        · injection hds1 with hc htl
          exact absurd hc h3
    · constructor
      · intro hv
        exact hv.elim
      · rintro (⟨-, hall, -⟩ | ⟨ds1, hds1, -, -, -⟩ | ⟨ds1, hds1, -, -, -⟩)
        · exact absurd hall h5
        · injection hds1 with hc htl
          exact absurd hc h1
        · injection hds1 with hc htl
          exact absurd hc h3

/-- Claim C7 (amended): `readPid` returns exactly the integer recorded in
the PID file for every file whose content, after stripping surrounding
whitespace, is a syntactically valid optionally-signed decimal integer
(Python `int` syntax, so negative and plus-signed records are returned as
well); for every other input (absent file, open failure, empty or
non-numeric content) it returns `None` and never raises. -/
theorem C7_read_pid_characterization (fs : FileSys) (path : String) (v : Int) :
    read_pid_from_pidfile fs path = some v ↔
      ∃ c, fs path = some c ∧ SignedDecimalRepr (pyStripChars c.toList) v := by
  unfold read_pid_from_pidfile
  cases hfs : fs path with
  | none => simp
  | some c => simp [pyInt_eq_some_iff]

/-- Claim C7 is false as stated: the PID file content `"-5\n"` is not a
non-negative decimal integer (its stripped form is not a digit string), yet
`read_pid_from_pidfile` returns `-5` rather than "no PID". -/
theorem C7_counterexample :
    read_pid_from_pidfile fsNeg pidPath = some (-5) ∧
    (pyStripChars ("-5\n".toList)).all Char.isDigit = false := by
  exact ⟨by decide, by decide⟩

/-- Claim C9: `remove_existing_pidfile` is idempotent — deleting an absent
file is a silent no-op (so deleting twice in a row, or on a path that never
existed, never raises), while any deletion failure other than `ENOENT`
propagates to the caller. -/
theorem C9_remove_idempotent (fs : FileSys) (path : String) :
    (fs path = none → remove_existing_pidfile none fs path = Except.ok fs) ∧
    (∀ fs1, remove_existing_pidfile none fs path = Except.ok fs1 →
      remove_existing_pidfile none fs1 path = Except.ok fs1) ∧
    (∀ e, e ≠ ENOENT → remove_existing_pidfile (some e) fs path =
      Except.error e) := by
  refine ⟨?_, ?_, ?_⟩
  · intro h
    simp [remove_existing_pidfile, os_remove, pidfile_exists, h]
  · intro fs1 h
    cases hfs : fs path with
    | none =>
        simp [remove_existing_pidfile, os_remove, pidfile_exists, hfs] at h
        subst h
        simp [remove_existing_pidfile, os_remove, pidfile_exists, hfs]
    | some c =>
        simp [remove_existing_pidfile, os_remove, pidfile_exists, hfs] at h
        subst h
        simp [remove_existing_pidfile, os_remove, pidfile_exists, removeFile]
  · intro e he
    simp [remove_existing_pidfile, os_remove, he]

/-- Witness for C9 at a concrete path that never existed and a concrete
injected `EACCES` failure. -/
theorem C9_witness :
    remove_existing_pidfile none fsEmpty pidPath = Except.ok fsEmpty ∧
    remove_existing_pidfile (some EACCES) fsEmpty pidPath =
      Except.error EACCES :=
  ⟨(C9_remove_idempotent fsEmpty pidPath).1 rfl,
   (C9_remove_idempotent fsEmpty pidPath).2.2 EACCES (by decide)⟩

/-- Claim C5: with a lock configured, `is_pidfile_stale` never raises, and
returns `true` exactly when a PID can be read from the lock and the
`os.kill(pid, SIG_DFL)` liveness probe fails with `ESRCH`; in every other
case — no readable PID, a successful probe, or a probe failing for any
other reason such as `EPERM` — it returns `false`. -/
theorem C5_is_pidfile_stale_iff (kill : Int → Int → Option Nat)
    (fs : FileSys) (path : String) :
    ∃ r, is_pidfile_stale kill fs (some path) = Except.ok r ∧
      (r = true ↔ ∃ p, read_pid_from_pidfile fs path = some p ∧
        kill p SIG_DFL = some ESRCH) := by
  cases hr : read_pid_from_pidfile fs path with
  | none => exact ⟨false, by simp [is_pidfile_stale, hr], by simp [hr]⟩
  | some p =>
      cases hk : kill p SIG_DFL with
      | none =>
          exact ⟨false, by simp [is_pidfile_stale, hr, hk], by simp [hr, hk]⟩
      | some e =>
          by_cases he : e = ESRCH
          · subst he
            exact ⟨true, by simp [is_pidfile_stale, hr, hk], by simp [hr, hk]⟩
          · exact ⟨false, by simp [is_pidfile_stale, hr, hk, he],
              by simp [hr, hk, he]⟩

/-- Claim C1 (code bug): `write_pid_to_pidfile` opens with the truncating
mode `'w'`, not an exclusive create — on a path whose file already exists
(here recording PID `8642`) the call succeeds and silently clobbers the
existing holder's record with the caller's PID, instead of failing. -/
theorem C1_write_truncates_existing :
    fsOther pidPath = some "8642\n" ∧
    ∃ fs1, write_pid_to_pidfile false fsOther pidPath 235 = Except.ok fs1 ∧
      fs1 pidPath = some "235\n" :=
  ⟨by decide, setFile fsOther pidPath (toString (235 : Int) ++ "\n"), rfl,
   by decide⟩

/-- Claim C2 (code bug): a runner configured with no PID-lock crashes in
`_start` with `AttributeError` — `is_pidfile_stale(None)` dereferences
`None.read_pid()` — before the daemon context is ever opened, instead of
skipping all locking and proceeding. -/
theorem C2_start_none_pidfile :
    ∀ (kill : Int → Int → Option Nat) (env : AcquireEnv) (renv : Option Nat)
      (myPid : Int) (timeout : Option ℚ) (fuel : Nat) (fs : FileSys),
      DaemonRunner.start kill env renv none myPid timeout fuel fs =
        ([], StartRes.startAttrError) :=
  fun _ _ _ _ _ _ _ => rfl

/-- If the PID file exists at every poll through offset `n` from the
current poll index `k`, and the captured deadline has been exceeded by the
clock reading made at offset `n`, the acquire loop ends in
`AlreadyLocked`. -/
theorem acquireLoop_deadline_exceeded (env : AcquireEnv) (path : String)
    (pid : Int) (d : ℚ) :
    ∀ (n k fuel : Nat), n < fuel →
      (∀ j, j ≤ n → pidfile_exists (env.fsAt (k + j)) path = true) →
      d < env.timeAt (k + n + 1) →
      (acquireLoop env path pid (some d) fuel k).2 =
        AcquireRes.alreadyLocked := by
  intro n
  induction n with
  | zero =>
      intro k fuel hfuel hex htime
      obtain ⟨f, rfl⟩ : ∃ f, fuel = f + 1 := ⟨fuel - 1, by omega⟩
      have h0 : pidfile_exists (env.fsAt k) path = true := by
        simpa using hex 0 (Nat.le_refl 0)
      have ht : d < env.timeAt (k + 1) := by simpa using htime
      simp [acquireLoop, h0, ht]
  | succ m ih =>
      intro k fuel hfuel hex htime
      obtain ⟨f, rfl⟩ : ∃ f, fuel = f + 1 := ⟨fuel - 1, by omega⟩
      have h0 : pidfile_exists (env.fsAt k) path = true := by
        simpa using hex 0 (Nat.zero_le _)
      by_cases ht : d < env.timeAt (k + 1)
      · simp [acquireLoop, h0, ht]
      · have hrec := ih (k + 1) f (by omega)
          (fun j hj => by
            have h1 := hex (j + 1) (by omega)
            have h2 : k + (j + 1) = k + 1 + j := by omega
            rwa [h2] at h1)
          (by
            have h2 : k + (m + 1) + 1 = k + 1 + m + 1 := by omega
            rwa [h2] at htime)
        simp [acquireLoop, h0, ht, hrec]

/-- Claim C3: an `acquire` with a non-positive timeout while the PID file
exists fails at once with `AlreadyLocked` — no sleep, no write (empty event
trace) — provided only that the clock advanced since the request timestamp;
and with a positive timeout the deadline is captured once, at call start,
as `timeAt 0 + t`, and `AlreadyLocked` results whenever that deadline has
passed while the file still exists at every poll. -/
theorem C3_acquire_timeout (env : AcquireEnv) (path : String) (pid : Int)
    (t : ℚ) :
    (pidfile_exists (env.fsAt 0) path = true → t ≤ 0 →
      env.timeAt 0 < env.timeAt 1 →
      ∀ fuel, PIDLockFile.acquire env path pid (some t) (fuel + 1) =
        ([], AcquireRes.alreadyLocked)) ∧
    (0 < t → ∀ n fuel, n < fuel →
      (∀ j, j ≤ n → pidfile_exists (env.fsAt j) path = true) →
      env.timeAt 0 + t < env.timeAt (n + 1) →
      (PIDLockFile.acquire env path pid (some t) fuel).2 =
        AcquireRes.alreadyLocked) := by
  constructor
  · intro hex ht hclock fuel
    have hd : env.timeAt 0 + t < env.timeAt 1 := by
      calc env.timeAt 0 + t ≤ env.timeAt 0 := by linarith
        _ < env.timeAt 1 := hclock
    show acquireLoop env path pid (some (env.timeAt 0 + t)) (fuel + 1) 0 =
      ([], AcquireRes.alreadyLocked)
    simp [acquireLoop, hex, hd]
  · intro hpos n fuel hfuel hex htime
    show (acquireLoop env path pid (some (env.timeAt 0 + t)) fuel 0).2 =
      AcquireRes.alreadyLocked
    exact acquireLoop_deadline_exceeded env path pid (env.timeAt 0 + t) n 0
      fuel hfuel (fun j hj => by simpa using hex j hj) (by simpa using htime)

/-- Witness for C3: against a PID file held by `8642` at every poll and a
strictly increasing clock, a timeout of `0` fails immediately with an empty
event trace, and a timeout of `1` whose deadline has passed by the second
poll fails with `AlreadyLocked`. -/
theorem C3_witness :
    PIDLockFile.acquire envOther pidPath 235 (some 0) 1 =
      ([], AcquireRes.alreadyLocked) ∧
    (PIDLockFile.acquire envOther pidPath 235 (some 1) 2).2 =
      AcquireRes.alreadyLocked :=
  ⟨(C3_acquire_timeout envOther pidPath 235 0).1 rfl (le_refl 0)
      (by norm_num [envOther, clockLin]) 0,
   (C3_acquire_timeout envOther pidPath 235 1).2 (by norm_num) 1 2
      (by norm_num) (fun _ _ => rfl)
      (by norm_num [envOther, clockLin])⟩

/-- Claim C10: an `acquire` on a path whose PID file does not exist never
raises `AlreadyLocked` and never sleeps, for every timeout value; the
polling branch is unreachable, and (absent an OS write error) the lock is
claimed immediately by writing the caller's PID. -/
theorem C10_acquire_unlocked (env : AcquireEnv) (path : String) (pid : Int)
    (timeout : Option ℚ) (fuel : Nat)
    (h : pidfile_exists (env.fsAt 0) path = false) :
    (PIDLockFile.acquire env path pid timeout (fuel + 1)).2 ≠
      AcquireRes.alreadyLocked ∧
    AcquireEv.sleepEv ∉ (PIDLockFile.acquire env path pid timeout (fuel + 1)).1 ∧
    (env.writeFails = false →
      ∃ fs1, PIDLockFile.acquire env path pid timeout (fuel + 1) =
        ([AcquireEv.writeEv], AcquireRes.acquired fs1) ∧
        fs1 path = some (toString pid ++ "\n")) := by
  cases hw : env.writeFails with
  | false =>
      have hacq : PIDLockFile.acquire env path pid timeout (fuel + 1) =
          ([AcquireEv.writeEv], AcquireRes.acquired
            (setFile (env.fsAt 0) path (toString pid ++ "\n"))) := by
        show acquireLoop env path pid (timeout.map (fun t => env.timeAt 0 + t))
          (fuel + 1) 0 = _
        simp [acquireLoop, h, write_pid_to_pidfile, hw]
      rw [hacq]
      exact ⟨by simp, by simp, fun _ => ⟨_, rfl, by simp [setFile]⟩⟩
  | true =>
      have hacq : PIDLockFile.acquire env path pid timeout (fuel + 1) =
          ([], AcquireRes.lockFailed) := by
        show acquireLoop env path pid (timeout.map (fun t => env.timeAt 0 + t))
          (fuel + 1) 0 = _
        simp [acquireLoop, h, write_pid_to_pidfile, hw]
      rw [hacq]
      exact ⟨by simp, by simp, fun hc => Bool.noConfusion hc⟩

/-- Witness for C10: on the empty filesystem with an indefinite timeout,
the acquire immediately writes the caller's PID with no sleep and no
`AlreadyLocked`. -/
theorem C10_witness :
    (PIDLockFile.acquire envEmpty pidPath 235 none 1).2 ≠
      AcquireRes.alreadyLocked ∧
    ∃ fs1, PIDLockFile.acquire envEmpty pidPath 235 none 1 =
      ([AcquireEv.writeEv], AcquireRes.acquired fs1) ∧
      fs1 pidPath = some (toString (235 : Int) ++ "\n") :=
  ⟨(C10_acquire_unlocked envEmpty pidPath 235 none 0 rfl).1,
   (C10_acquire_unlocked envEmpty pidPath 235 none 0 rfl).2.2 rfl⟩

/-- A successfully read PID implies the PID file exists. -/
theorem read_pid_isSome (fs : FileSys) (path : String) (p : Int)
    (h : read_pid_from_pidfile fs path = some p) :
    pidfile_exists fs path = true := by
  cases hfs : fs path with
  | none => simp [read_pid_from_pidfile, hfs] at h
  | some c => simp [pidfile_exists, hfs]

/-- Claim C4: `release` succeeds — removing the PID file — exactly when
the calling process is the recorded owner; with no file present it fails
`NotLocked`, with a file recording a different PID it fails `NotMyLock`,
and in both failure cases the filesystem is left untouched.  The
hypotheses keep the external base lock's state in sync with the PID file
(the spec's invariant that the file is the authoritative lock state). -/
theorem C4_release (b : BaseLockState) (fs : FileSys) (path : String)
    (myPid : Int)
    (hsync1 : b.lockExists = pidfile_exists fs path)
    (hsync2 : b.lockingPid = read_pid_from_pidfile fs path) :
    (read_pid_from_pidfile fs path = some myPid →
      PIDLockFile.release none b fs path myPid =
        ⟨removeFile fs path, ⟨false, none⟩, none⟩) ∧
    (fs path = none →
      PIDLockFile.release none b fs path myPid =
        ⟨fs, b, some (RelErr.lockErr LockError.notLocked)⟩) ∧
    (∀ p, read_pid_from_pidfile fs path = some p → p ≠ myPid →
      PIDLockFile.release none b fs path myPid =
        ⟨fs, b, some (RelErr.lockErr LockError.notMyLock)⟩) ∧
    ((PIDLockFile.release none b fs path myPid).err = none →
      read_pid_from_pidfile fs path = some myPid) := by
  refine ⟨?_, ?_, ?_, ?_⟩
  · intro h
    have hex : pidfile_exists fs path = true := read_pid_isSome fs path myPid h
    have hb1 : b.lockExists = true := hsync1.trans hex
    have hb2 : b.lockingPid = some myPid := hsync2.trans h
    simp [PIDLockFile.release, LinkFileLock.i_am_locking, LinkFileLock.release,
      remove_existing_pidfile, os_remove, hb1, hb2, hex]
  · intro h
    have hex : pidfile_exists fs path = false := by simp [pidfile_exists, h]
    have hr : read_pid_from_pidfile fs path = none := by
      simp [read_pid_from_pidfile, h]
    have hb1 : b.lockExists = false := hsync1.trans hex
    have hb2 : b.lockingPid = none := hsync2.trans hr
    simp [PIDLockFile.release, LinkFileLock.i_am_locking, LinkFileLock.release,
      hb1, hb2]
  · intro p hp hne
    have hex : pidfile_exists fs path = true := read_pid_isSome fs path p hp
    have hb1 : b.lockExists = true := hsync1.trans hex
    have hb2 : b.lockingPid = some p := hsync2.trans hp
    simp [PIDLockFile.release, LinkFileLock.i_am_locking, LinkFileLock.release,
      hb1, hb2, hne]
  · intro herr
    by_cases hpid : b.lockingPid = some myPid
    · exact hsync2.symm.trans hpid
    · exfalso
      cases hb : b.lockExists with
      | false =>
          simp [PIDLockFile.release, LinkFileLock.i_am_locking,
            LinkFileLock.release, hb, hpid] at herr
      | true =>
          simp [PIDLockFile.release, LinkFileLock.i_am_locking,
            LinkFileLock.release, hb, hpid] at herr

/-- Witness for C4: the recorded owner (`235`) releases successfully and
the file is removed; a caller whose PID differs from the recorded `8642`
fails `NotMyLock` with the file untouched. -/
theorem C4_witness :
    PIDLockFile.release none ⟨true, some 235⟩ fsMine pidPath 235 =
      ⟨removeFile fsMine pidPath, ⟨false, none⟩, none⟩ ∧
    PIDLockFile.release none ⟨true, some 8642⟩ fsOther pidPath 235 =
      ⟨fsOther, ⟨true, some 8642⟩,
        some (RelErr.lockErr LockError.notMyLock)⟩ :=
  ⟨(C4_release ⟨true, some 235⟩ fsMine pidPath 235 (by decide) (by decide)).1
      (by decide),
   (C4_release ⟨true, some 8642⟩ fsOther pidPath 235 (by decide)
      (by decide)).2.2.1 8642 (by decide) (by decide)⟩

/-- Claim C6: `_stop` fails with a stop-failure when the lock is not held;
on a stale lock it breaks the lock and returns without any `os.kill`; and
otherwise it reads the owner PID and sends it `SIGTERM`, turning an
OS-level delivery failure into a stop-failure wrapping the PID and the
errno. -/
theorem C6_stop (kill : Int → Int → Option Nat) (renv : Option Nat)
    (fs : FileSys) (path : String) :
    (LinkFileLock.is_locked fs path = false →
      DaemonRunner.stop kill renv (some path) fs =
        ([], StopRes.stopFailureNotLocked path)) ∧
    (is_pidfile_stale kill fs (some path) = Except.ok true → renv = none →
      DaemonRunner.stop kill renv (some path) fs =
        ([RunEv.breakLockEv], StopRes.stopped (removeFile fs path))) ∧
    (∀ p, is_pidfile_stale kill fs (some path) = Except.ok false →
      read_pid_from_pidfile fs path = some p →
      (kill p SIGTERM = none →
        DaemonRunner.stop kill renv (some path) fs =
          ([RunEv.killEv p SIGTERM], StopRes.stopped fs)) ∧
      (∀ e, kill p SIGTERM = some e →
        DaemonRunner.stop kill renv (some path) fs =
          ([RunEv.killEv p SIGTERM], StopRes.stopFailureKill p e))) := by
  refine ⟨?_, ?_, ?_⟩
  · intro hnl
    simp [DaemonRunner.stop, hnl]
  · intro hst hre
    subst hre
    cases hr : read_pid_from_pidfile fs path with
    | none => simp [is_pidfile_stale, hr] at hst
    | some p =>
        have hex : pidfile_exists fs path = true := read_pid_isSome fs path p hr
        have hlk : LinkFileLock.is_locked fs path = true := hex
        simp [DaemonRunner.stop, hlk, hst, PIDLockFile.break_lock,
          remove_existing_pidfile, os_remove, hex]
  · intro p hst hr
    have hex : pidfile_exists fs path = true := read_pid_isSome fs path p hr
    have hlk : LinkFileLock.is_locked fs path = true := hex
    constructor
    · intro hk
      simp [DaemonRunner.stop, hlk, hst,
        DaemonRunner.terminate_daemon_process, hr, hk]
    · intro e hk
      simp [DaemonRunner.stop, hlk, hst,
        DaemonRunner.terminate_daemon_process, hr, hk]

/-- Witness for C6: a stale lock (holder `8642` gone) is broken with no
signal sent; a live holder is sent `SIGTERM`. -/
theorem C6_witness :
    DaemonRunner.stop killGone none (some pidPath) fsOther =
      ([RunEv.breakLockEv], StopRes.stopped (removeFile fsOther pidPath)) ∧
    DaemonRunner.stop killAlive none (some pidPath) fsOther =
      ([RunEv.killEv 8642 SIGTERM], StopRes.stopped fsOther) :=
  ⟨(C6_stop killGone none fsOther pidPath).2.1 rfl rfl,
   ((C6_stop killAlive none fsOther pidPath).2.2 8642 rfl rfl).1 rfl⟩

/-- Claim C8: with a lock configured, `_start` breaks a stale lock first,
and only then opens the daemon context — on the filesystem with the PID
file already removed; when the open reports the lock already held by a
live holder, start fails with `StartFailure` naming the lock path; in
particular a second start against a freshly started live instance with
timeout `0` fails this way. -/
theorem C8_start (kill : Int → Int → Option Nat) (env : AcquireEnv)
    (myPid : Int) (timeout : Option ℚ) (fuel : Nat) (fs : FileSys)
    (path : String) :
    (is_pidfile_stale kill fs (some path) = Except.ok true →
      DaemonRunner.start kill env none (some path) myPid timeout fuel fs =
        (RunEv.breakLockEv ::
          (DaemonContext.open_ env (some path) myPid timeout fuel
            (removeFile fs path)).1.map RunEv.acqEv,
         startResOfOpen path
          (DaemonContext.open_ env (some path) myPid timeout fuel
            (removeFile fs path)).2)) ∧
    (is_pidfile_stale kill fs (some path) = Except.ok false →
      (PIDLockFile.acquire (updFs env fs) path myPid timeout fuel).2 =
        AcquireRes.alreadyLocked →
      (DaemonRunner.start kill env none (some path) myPid timeout fuel fs).2 =
        StartRes.startFailure path) ∧
    (∀ p c, fs path = some c → pyInt c.toList = some p →
      kill p SIG_DFL = none → env.timeAt 0 < env.timeAt 1 →
      (DaemonRunner.start kill env none (some path) myPid (some 0)
          (fuel + 1) fs).2 = StartRes.startFailure path) := by
  refine ⟨?_, ?_, ?_⟩
  · intro hst
    cases hr : read_pid_from_pidfile fs path with
    | none => simp [is_pidfile_stale, hr] at hst
    | some p =>
        have hex : pidfile_exists fs path = true := read_pid_isSome fs path p hr
        simp [DaemonRunner.start, hst, PIDLockFile.break_lock,
          remove_existing_pidfile, os_remove, hex]
  · intro hst halready
    simp [DaemonRunner.start, hst, DaemonContext.open_, halready,
      startResOfOpen]
  · intro p c hfs hp hk hclock
    have hp1 : pyInt c.data = some p := hp
    have hr : read_pid_from_pidfile fs path = some p := by
      simp [read_pid_from_pidfile, hfs, hp1]
    have hst : is_pidfile_stale kill fs (some path) = Except.ok false := by
      simp [is_pidfile_stale, hr, hk]
    have hex0 : pidfile_exists ((updFs env fs).fsAt 0) path = true := by
      have hex : pidfile_exists fs path = true := read_pid_isSome fs path p hr
      simpa [updFs] using hex
    have hd : (updFs env fs).timeAt 0 + 0 < (updFs env fs).timeAt 1 := by
      simpa [updFs] using hclock
    have halready : (PIDLockFile.acquire (updFs env fs) path myPid (some 0)
        (fuel + 1)).2 = AcquireRes.alreadyLocked := by
      show (acquireLoop (updFs env fs) path myPid
        (some ((updFs env fs).timeAt 0 + 0)) (fuel + 1) 0).2 = _
      refine acquireLoop_deadline_exceeded (updFs env fs) path myPid
        ((updFs env fs).timeAt 0 + 0) 0 0 (fuel + 1) (by omega) ?_ ?_
      · intro j hj
        rw [Nat.le_zero] at hj
        subst hj
        simpa using hex0
      · simpa using hd
    simp [DaemonRunner.start, hst, DaemonContext.open_, halready,
      startResOfOpen]

/-- Witness for C8: a stale lock (holder `8642` gone) is broken before the
context opens on the cleaned filesystem; and a second start against the
live holder `8642` with timeout `0` fails with `StartFailure` naming the
lock path. -/
theorem C8_witness :
    DaemonRunner.start killGone envOther none (some pidPath) 235 none 1
        fsOther =
      (RunEv.breakLockEv ::
        (DaemonContext.open_ envOther (some pidPath) 235 none 1
          (removeFile fsOther pidPath)).1.map RunEv.acqEv,
       startResOfOpen pidPath
        (DaemonContext.open_ envOther (some pidPath) 235 none 1
          (removeFile fsOther pidPath)).2) ∧
    (DaemonRunner.start killAlive envOther none (some pidPath) 235 (some 0)
        1 fsOther).2 = StartRes.startFailure pidPath :=
  ⟨(C8_start killGone envOther 235 none 1 fsOther pidPath).1 rfl,
   (C8_start killAlive envOther 235 none 0 fsOther pidPath).2.2 8642
      "8642\n" rfl rfl rfl (by norm_num [envOther, clockLin])⟩

end PyDaemon
